import Mathlib

set_option maxHeartbeats 1000000

/-!
Verification development for the `area-risk-flagging` repository.

The definitions below are a shallow embedding of the core analytical code:
`src/area_risk_flagging/test.py` (absorption-rate pipeline),
`src/area_risk_flagging/test_2.py` (risk classifier) and
`src/utils/helper_func.py` (date resolution helpers).  pandas tables are
embedded as lists of structures (one structure per table, carrying the
columns the embedded functions read); a missing (NaN) cell is `none`;
floats are embedded as rationals; Python functions that can return `None`
or raise a caught exception return `Option`.
-/

/-! ### Generic helpers -/

/-- Fuel-driven decimal digit counter: `digitsGo f n` is the number of decimal
digits of `n` for every `n < 10 ^ f` (and at least `f + 1` otherwise, which is
never 6 or 7 for the fuels used here). -/
def digitsGo (f n : Nat) : Nat :=
  match f with
  | 0 => 1
  | f + 1 => if n < 10 then 1 else digitsGo f (n / 10) + 1

/-- Number of decimal digits of a natural number: the length of Python
`str(n)` for `n ≥ 0`.  Fuel 30 covers every value with up to 30 digits;
larger values report at least 31 digits, so the 6/7-digit tests below are
exact for all naturals. -/
def decDigits (n : Nat) : Nat := digitsGo 30 n

/-- Round a rational to the nearest integer, ties to even: the rounding used
by numpy/pandas `round`. -/
def roundHalfEven (x : ℚ) : ℤ :=
  if x - ⌊x⌋ < 1/2 then ⌊x⌋
  else if 1/2 < x - ⌊x⌋ then ⌊x⌋ + 1
  else if ⌊x⌋ % 2 = 0 then ⌊x⌋ else ⌊x⌋ + 1

/-- pandas `Series.round(2)`: round to 2 decimal places, ties to even. -/
def round2 (x : ℚ) : ℚ := (roundHalfEven (x * 100) : ℚ) / 100

/-- Running cumulative sums with accumulator `a`: `cumFrom a [c₁, c₂, …] =
[a+c₁, a+c₁+c₂, …]` (pandas `cumsum` within one group). -/
def cumFrom (a : Nat) : List Nat → List Nat
  | [] => []
  | c :: cs => (a + c) :: cumFrom (a + c) cs

/-- pandas `cumsum` of a list of counts. -/
def partialSums (l : List Nat) : List Nat := cumFrom 0 l

/-- Embeds pandas `.str.split('-').str[0]`: the prefix of `s` before its
first `'-'` (the whole string when there is none). -/
def cityOf (s : String) : String := String.mk (s.data.takeWhile (fun c => c ≠ '-'))

/-! ### Calendar normalisation (test.py `convert_taiwan_date`) -/

/-- A Python `datetime` date. -/
structure PyDate where
  year : Int
  month : Nat
  day : Nat
deriving DecidableEq, Repr

/-- Gregorian leap-year rule (Python `datetime`'s calendar). -/
def isLeapYear (y : Int) : Bool := (y % 4 == 0 && y % 100 != 0) || y % 400 == 0

/-- Days in a month of year `y`. -/
def daysInMonth (y : Int) (m : Nat) : Nat :=
  if m = 2 then (if isLeapYear y then 29 else 28)
  else if m = 4 ∨ m = 6 ∨ m = 9 ∨ m = 11 then 30
  else 31

/-- Python `datetime(year, month, day)`: `some` when the triple is a valid
date (year in 1..9999), `none` models the `ValueError` the callers catch. -/
def mkDatetime (y : Int) (m d : Nat) : Option PyDate :=
  if 1 ≤ y ∧ y ≤ 9999 ∧ 1 ≤ m ∧ m ≤ 12 ∧ 1 ≤ d ∧ d ≤ daysInMonth y m then some ⟨y, m, d⟩
  else none

/-- `PresaleMarketAnalysis.convert_taiwan_date` (test.py 410-430).
The input is the numeric cell (`none` = NaN); `date_val == 0` returns `None`.
The string slicing of `date_str = str(int(date_val))` is embedded
arithmetically: for a positive value with 7 digits, `int(date_str[:3]) =
n / 10000`, `int(date_str[3:5]) = (n / 100) % 100`, `int(date_str[5:7]) =
n % 100`; with 6 digits, `int(date_str[:3]) = n / 1000`,
`int(date_str[3:5]) = (n / 10) % 100`, and since `len(date_str[5:]) = 1`
the day is `int(date_str[5:6]) = n % 10`.  For a negative value `str`
prepends `'-'`, so a 6-digit magnitude gives a 7-character string whose
slice `[:3]` is `-(n / 10000)` (two leading digits with the sign), and a
5-digit magnitude gives a 6-character string with `[:3] = -(n / 1000)`.
Every other digit count, and every `ValueError` from `datetime`, yields
`None`. -/
def convert_taiwan_date (dateVal : Option Int) : Option PyDate :=
  match dateVal with
  | none => none
  | some dv =>
    if dv = 0 then none
    else if 0 < dv then
      let n := dv.toNat
      if decDigits n = 7 then
        mkDatetime ((n / 10000 : Nat) + 1911) ((n / 100) % 100) (n % 100)
      else if decDigits n = 6 then
        mkDatetime ((n / 1000 : Nat) + 1911) ((n / 10) % 100) (n % 10)
      else none
    else
      let n := (-dv).toNat
      if decDigits n = 6 then
        mkDatetime (1911 - (n / 10000 : Nat)) ((n / 100) % 100) (n % 100)
      else if decDigits n = 5 then
        mkDatetime (1911 - (n / 1000 : Nat)) ((n / 10) % 100) (n % 10)
      else none

/-! ### Sales-start-date resolution (helper_func.py `sales_start_time`) -/

/-- The four date cells `sales_start_time` reads from a community row
(helper_func.py 232-276).  Cells hold the raw era-encoded numeric dates;
`none` is a NaN cell.  On a numeric cell Python's `str(...).strip()` /
`int(...)` round-trip is the identity, so values stay integers; the
`ValueError` branch (non-numeric text in the two-present case) returns the
empty string, i.e. no usable date, which this embedding does not need. -/
structure SaleDatesRow where
  selfStart : Option Int
  agentStart : Option Int
  checkDone : Option Int
  permitIssue : Option Int
deriving DecidableEq, Repr

/-- `sales_start_time` (helper_func.py 232-276): only one of self-sale /
agent-sale present → that one; both present → the numerically smaller
(earlier) one; both absent → registration-completion date, else permit
issuance date, else nothing. -/
def sales_start_time (row : SaleDatesRow) : Option Int :=
  match row.selfStart, row.agentStart with
  | some s, none => some s
  | none, some a => some a
  | some s, some a => some (min s a)
  | none, none =>
    match row.checkDone with
    | some c => some c
    | none =>
      match row.permitIssue with
      | some p => some p
      | none => none

/-! ### test.py: preprocessing, record linkage and the absorption table

`PresaleMarketAnalysis` keeps two pandas tables.  The rows below carry the
columns that preprocessing, the identifier matching and the absorption
computation read; every other column (dates, prices, …) is untouched by
the embedded functions. -/

/-- A transaction row (预售屋买卖主档): `none` = NaN cell. -/
structure TRow where
  name : Option String
  city : Option String
  district : Option String
  bid : Option String
  quarter : Option String
deriving DecidableEq, Repr

/-- A community row (预售屋备查): `none` = NaN cell; `units` is 戶數 after
`pd.to_numeric`. -/
structure CRow where
  name : Option String
  units : Option ℚ
  cid : Option String
deriving DecidableEq, Repr

/-- test.py 454: `dropna(subset=['社區名稱', '縣市', '行政區'])` on the
transaction table. -/
def dropnaTx (txs : List TRow) : List TRow :=
  txs.filter (fun t => t.name.isSome && t.city.isSome && t.district.isSome)

/-- test.py 456-458: `dropna(subset=['社區名稱', '戶數'])` after numeric
coercion of 戶數 on the community table. -/
def dropnaComm (cs : List CRow) : List CRow :=
  cs.filter (fun c => c.name.isSome && c.units.isSome)

/-- The set of non-null 備查編號 values of the transaction table
(test.py 307/310): dedup keeps the distinct identifiers. -/
def transactionIds (txs : List TRow) : List String := (txs.filterMap (·.bid)).dedup

/-- The set of non-null 編號 values of the community table (test.py 308/311). -/
def communityIds (cs : List CRow) : List String := (cs.filterMap (·.cid)).dedup

/-- test.py 312: `transaction_ids.intersection(community_ids)`. -/
def matchedIds (txs : List TRow) (cs : List CRow) : List String :=
  (transactionIds txs).filter (fun i => (communityIds cs).contains i)

/-- The diagnostics `check_data_matching` prints (test.py 317-323). -/
structure MatchDiag where
  txTotal : Nat
  commTotal : Nat
  matched : Nat
  onlyTx : Nat
  onlyComm : Nat
deriving DecidableEq, Repr

/-- `check_data_matching` (test.py 293-323): computes and prints the matching
diagnostics, then falls off the end of the function body — so its Python
return value is `None`.  The pair keeps both: first the printed diagnostics,
second the value actually returned to the caller. -/
def check_data_matching (txs : List TRow) (cs : List CRow) : MatchDiag × Option Nat :=
  (⟨(transactionIds txs).length,
    (communityIds cs).length,
    (matchedIds txs cs).length,
    ((transactionIds txs).filter (fun i => !(communityIds cs).contains i)).length,
    ((communityIds cs).filter (fun i => !(transactionIds txs).contains i)).length⟩,
   none)

/-- `preprocess_data` (test.py 448-468): the dropna steps, then
`matched_count = self.check_data_matching()` followed by the guard
`if matched_count == 0: return None`.  In Python `matched_count` is the
function's return value `None`, and `None == 0` is `False`; the embedded
guard is therefore the `some 0` test on the returned `Option`.  The date
parsing and sales-period steps (452, 460) only add derived columns and drop
no rows, so they do not appear in this embedding. -/
def preprocess_data (txs : List TRow) (cs : List CRow) :
    Option (List TRow × List CRow) :=
  if (check_data_matching (dropnaTx txs) (dropnaComm cs)).2 = some 0 then none
  else some (dropnaTx txs, dropnaComm cs)

/-- A row of `analysis_result` as built by the merge at test.py 539-547:
the community id, its 戶數 and the 已售戶數 count attached by the left join
(`fillna(0)` makes a missing count 0, which the join length below realises
as an empty filter). -/
structure MergedRow where
  cid : String
  units : Option ℚ
  sold : Nat
deriving DecidableEq, Repr

/-- test.py 525-527: transactions with a non-null 備查編號 that is in the
matched set. -/
def filteredTx (txs : List TRow) (cs : List CRow) : List TRow :=
  txs.filter (fun t =>
    match t.bid with
    | some b => (matchedIds txs cs).contains b
    | none => false)

/-- test.py 529-531: communities with a non-null 編號 that is in the matched
set. -/
def filteredComm (txs : List TRow) (cs : List CRow) : List CRow :=
  cs.filter (fun c =>
    match c.cid with
    | some i => (matchedIds txs cs).contains i
    | none => false)

/-- One merged row per retained community (test.py 533-547): 已售戶數 is the
size of the transaction group with the community's identifier (0 when the
left join finds none, the `fillna(0)` branch). -/
def mergedRowFor (txs : List TRow) (cs : List CRow) (c : CRow) : Option MergedRow :=
  match c.cid with
  | some i =>
    some ⟨i, c.units, ((filteredTx txs cs).filter (fun t => t.bid = some i)).length⟩
  | none => none

/-- `calculate_time_adjusted_absorption_rate` (test.py 496-594), restricted to
the identifier matching and the units-sold join that the claims are about:
`none` when no identifier matches (the function prints an error, returns
early and leaves `analysis_result` unset), otherwise the merged per-community
rows. -/
def calculate_time_adjusted_absorption_rate (txs : List TRow) (cs : List CRow) :
    Option (List MergedRow) :=
  if (matchedIds txs cs).isEmpty then none
  else some ((filteredComm txs cs).filterMap (mergedRowFor txs cs))

/-- 已售戶數 of community id `p` (test.py 533): every transaction whose
備查編號 equals `p`. -/
def soldUnits (txs : List TRow) (p : String) : Nat :=
  (txs.filter (fun t => t.bid = some p)).length

/-! ### test.py: quarterly cumulative series (`analyze_quarterly_trends`) -/

/-- The 交易年季 labels of the transactions of project `p`
(test.py 86-87: rows surviving `dropna(subset=['交易年季', '備查編號'])`
whose 備查編號 equals `p`). -/
def quarterLabels (txs : List TRow) (p : String) : List String :=
  txs.filterMap (fun t => if t.bid = some p then t.quarter else none)

/-- Lexicographic (code-point) comparison of character lists: the order
pandas uses when sorting string labels. -/
def charListLe : List Char → List Char → Bool
  | [], _ => true
  | _ :: _, [] => false
  | a :: as, b :: bs => if a = b then charListLe as bs else decide (a < b)

/-- Code-point order on strings. -/
def strLe (a b : String) : Prop := charListLe a.data b.data = true

instance : DecidableRel strLe := fun a b => by unfold strLe; infer_instance

/-- The distinct quarters of project `p` in ascending label order
(the `sort_values(['備查編號', '交易年季'])` at test.py 101). -/
def projectQuarters (txs : List TRow) (p : String) : List String :=
  List.insertionSort strLe (quarterLabels txs p).dedup

/-- 季度銷售戶數 of `(p, q)`: the groupby size at test.py 87. -/
def quarterSales (txs : List TRow) (p q : String) : Nat :=
  (quarterLabels txs p).count q

/-- The 累積銷售戶數 column of project `p` (test.py 101-102): per-quarter
counts ordered by quarter, then a per-project running cumulative sum.
The inner merge at test.py 93-99 keeps only projects whose id is a
community id, so other projects contribute no rows. -/
def cumulativeUnitsSold (txs : List TRow) (cs : List CRow) (p : String) : List Nat :=
  if (communityIds cs).contains p then
    partialSums ((projectQuarters txs p).map (quarterSales txs p))
  else []

/-! ### test.py: district and city rollups -/

/-- A row of `analysis_result` carrying the columns the rollup groupbys
aggregate (test.py 333-339 / 374-380). -/
structure ARow where
  city : String
  district : String
  units : ℚ
  sold : ℚ
  rate : ℚ
  monthlyRate : ℚ
  salesDays : ℚ
deriving DecidableEq, Repr

/-- The distinct (縣市, 行政區) group keys (pandas sorts them; the order is
irrelevant to every property below). -/
def districtKeys (rs : List ARow) : List (String × String) :=
  (rs.map (fun r => (r.city, r.district))).dedup

/-- The rows of one (縣市, 行政區) group. -/
def districtGroup (rs : List ARow) (k : String × String) : List ARow :=
  rs.filter (fun r => decide ((r.city, r.district) = k))

/-- groupby sum of 戶數. -/
def sumUnits (g : List ARow) : ℚ := (g.map (·.units)).sum

/-- groupby sum of 已售戶數. -/
def sumSold (g : List ARow) : ℚ := (g.map (·.sold)).sum

/-- groupby mean of 去化率 — the naive mean of per-community rates, kept by
the rollup as its own column. -/
def meanRate (g : List ARow) : ℚ := (g.map (·.rate)).sum / (g.length : ℚ)

/-- A district rollup row (test.py 333-342): sums, the mean-of-rates column,
and 整體去化率. -/
structure DistrictStat where
  city : String
  district : String
  units : ℚ
  sold : ℚ
  rateMean : ℚ
  overallRate : ℚ
deriving DecidableEq, Repr

/-- `analyze_district_performance` (test.py 325-364): group `analysis_result`
by (縣市, 行政區); 整體去化率 = 已售戶數 sum / 戶數 sum × 100, rounded to two
decimals (test.py 341-342).  The later ranking/sorting does not change the
rows. -/
def analyze_district_performance (rs : List ARow) : List DistrictStat :=
  (districtKeys rs).map (fun k =>
    ⟨k.1, k.2, sumUnits (districtGroup rs k), sumSold (districtGroup rs k),
      meanRate (districtGroup rs k),
      round2 (sumSold (districtGroup rs k) / sumUnits (districtGroup rs k) * 100)⟩)

/-- The distinct 縣市 group keys. -/
def cityKeys (rs : List ARow) : List String := (rs.map (·.city)).dedup

/-- The rows of one 縣市 group. -/
def cityGroup (rs : List ARow) (c : String) : List ARow :=
  rs.filter (fun r => decide (r.city = c))

/-- A city rollup row (test.py 374-383). -/
structure CityStat where
  city : String
  units : ℚ
  sold : ℚ
  rateMean : ℚ
  overallRate : ℚ
deriving DecidableEq, Repr

/-- `analyze_city_performance` (test.py 366-408): group by 縣市 with the same
weighted 整體去化率 formula (test.py 382-383). -/
def analyze_city_performance (rs : List ARow) : List CityStat :=
  (cityKeys rs).map (fun c =>
    ⟨c, sumUnits (cityGroup rs c), sumSold (cityGroup rs c),
      meanRate (cityGroup rs c),
      round2 (sumSold (cityGroup rs c) / sumUnits (cityGroup rs c) * 100)⟩)

/-- Modelled from the spec's words, for comparison with the code: the
deliberately weighted statistic `overall_absorption_rate =
sum(units_sold)/sum(total_units)` expressed as a percentage. -/
def specWeightedRate (g : List ARow) : ℚ := 100 * (sumSold g / sumUnits g)

/-! ### test_2.py: sales-time preprocessing (`WorkingPreSaleRiskAnalyzer`) -/

/-- `_calculate_sales_days` (test_2.py 158-166), with dates embedded as day
numbers: no start date → 0; no end date → the *sampled current date* stands
in for the end; otherwise end − start. -/
def calculate_sales_days (startDate endDate : Option Int) (currentDate : Int) : Int :=
  match startDate with
  | none => 0
  | some s =>
    match endDate with
    | none => currentDate - s
    | some e => e - s

/-- 銷售月數 (test_2.py 80): 銷售天數 / 30.44. -/
def salesMonthsOfDays (d : Int) : ℚ := (d : ℚ) / (3044/100)

/-- `_classify_sales_stage` (test_2.py 168-180). -/
def classify_sales_stage (m : ℚ) : String :=
  if m ≤ 0 then "未知"
  else if m < 6 then "新開案"
  else if m < 24 then "積極銷售"
  else if m < 48 then "尾盤銷售"
  else "長期銷售"

/-- The sales stage a community row receives when `_process_sales_time_data`
(test_2.py 67-83) samples `now` as `current_date = datetime.now()`: the clock
value enters the computation exactly when the end date is missing. -/
def stageAtTime (startDate endDate : Option Int) (now : Int) : String :=
  classify_sales_stage (salesMonthsOfDays (calculate_sales_days startDate endDate now))

/-! ### test_2.py: time-adjusted absorption per region -/

/-- A sale-registry row after `_preprocess_data`: 縣市, 行政區 (concatenated
into 地區), 戶數 and the derived 銷售月數. -/
structure SRow where
  city : String
  district : String
  units : ℚ
  salesMonths : ℚ
deriving DecidableEq, Repr

/-- A transaction row of test_2.py: 縣市, 行政區 and the (possibly NaN)
備查編號. -/
structure T2Row where
  city : String
  district : String
  bid : Option String
deriving DecidableEq, Repr

/-- 地區 of a sale row (test_2.py 53: 縣市 + '-' + 行政區). -/
def regionOfS (s : SRow) : String := s.city ++ "-" ++ s.district

/-- 地區 of a transaction row (test_2.py 60). -/
def regionOfT (t : T2Row) : String := t.city ++ "-" ++ t.district

/-- `valid_sales` (test_2.py 190-193): 銷售月數 ≥ min_sales_months and
戶數 > 0. -/
def validSales (sales : List SRow) (minMonths : ℚ) : List SRow :=
  sales.filter (fun s => decide (minMonths ≤ s.salesMonths) && decide (0 < s.units))

/-- One row of `region_supply` (test_2.py 205-210). -/
structure SupplyAgg where
  region : String
  totalUnits : ℚ
  avgMonths : ℚ
  projects : Nat
deriving DecidableEq, Repr

/-- `region_supply` (test_2.py 205-210): group the valid sales by 地區;
總戶數 = sum of 戶數, 平均銷售月數 = mean of 銷售月數, 項目數 = group size. -/
def region_supply (sales : List SRow) (minMonths : ℚ) : List SupplyAgg :=
  ((validSales sales minMonths).map regionOfS).dedup.map (fun g =>
    ⟨g,
     (((validSales sales minMonths).filter (fun s => decide (regionOfS s = g))).map (·.units)).sum,
     (((validSales sales minMonths).filter (fun s => decide (regionOfS s = g))).map (·.salesMonths)).sum
       / (((validSales sales minMonths).filter (fun s => decide (regionOfS s = g))).length : ℚ),
     ((validSales sales minMonths).filter (fun s => decide (regionOfS s = g))).length⟩)

/-- One row of `demand_stats` (test_2.py 213-222): the region and its
成交筆數.  pandas `'備查編號': 'count'` counts the *non-null* identifiers of
the group, not its rows.  The price aggregates are dropped (nothing below
reads them). -/
structure DemandAgg where
  region : String
  txCount : Nat
deriving DecidableEq, Repr

/-- `demand_stats` (test_2.py 213-222), `by_quarter=False` grouping: one row
per 地區 that has at least one transaction row. -/
def demand_stats (txs : List T2Row) : List DemandAgg :=
  ((txs.map regionOfT).dedup).map (fun g =>
    ⟨g, ((txs.filter (fun t => decide (regionOfT t = g))).filter (fun t => t.bid.isSome)).length⟩)

/-- `_calculate_time_weighted_absorption` (test_2.py 283-296); a `none`
month value is the NaN produced by the left join when the region has no
supply row. -/
def calculate_time_weighted_absorption (standardRate : ℚ) (salesMonths : Option ℚ) : ℚ :=
  match salesMonths with
  | none => 0
  | some m =>
    if m ≤ 0 then 0
    else
      min (standardRate * (if m < 12 then min (12 / m) 2 else max (12 / m) (1/2))) 1

/-- An indicator row: the columns of the merged table that
`classify_risk_with_relative_option` reads.  平均銷售月數 is `none` when the
region was missing from the supply side (NaN after the left join); every
comparison on it is then `False`, exactly as with a NaN float. -/
structure Ind where
  region : String
  timeAdjRate : ℚ
  monthlyRate : ℚ
  txCount : ℚ
  avgSalesMonths : Option ℚ
deriving DecidableEq, Repr

/-- Python `row.get(col, 0) > c` on a possibly-NaN float column: `False` for
NaN. -/
def optGt (o : Option ℚ) (c : ℚ) : Bool :=
  match o with
  | none => false
  | some x => decide (c < x)

/-- test_2.py `calculate_time_adjusted_absorption_rate` (182-281),
`by_quarter=False` branch (the quarterly branch runs the same computation on
each 交易年季 slice): demand left-merged onto supply; 標準去化率 =
成交筆數 / 總戶數, `fillna(0)` and clipped to [0, 1]; 月去化率 =
標準去化率 / 平均銷售月數, `fillna(0)`; 時間調整去化率 via the time
weighting.  When the region has no supply row the joined columns are NaN and
the fillna steps make the rates 0.  (Supply rows always have 總戶數 > 0 and,
for the default `min_sales_months = 1`, 平均銷售月數 ≥ 1; the embedding is
used only in that regime.) -/
def calc_time_adjusted_t2 (sales : List SRow) (txs : List T2Row) (minMonths : ℚ) :
    List Ind :=
  (demand_stats txs).map (fun d =>
    match (region_supply sales minMonths).find? (fun a => decide (a.region = d.region)) with
    | some a =>
      ⟨d.region,
       calculate_time_weighted_absorption (min (max ((d.txCount : ℚ) / a.totalUnits) 0) 1)
         (some a.avgMonths),
       min (max ((d.txCount : ℚ) / a.totalUnits) 0) 1 / a.avgMonths,
       (d.txCount : ℚ),
       some a.avgMonths⟩
    | none =>
      ⟨d.region, 0, 0, (d.txCount : ℚ), none⟩)

/-! ### test_2.py: absolute risk classification -/

/-- The risk factors `_absolute_risk_classification` (test_2.py 324-379)
collects for one row, in firing order. -/
def absoluteRiskFactors (r : Ind) : List String :=
  (if r.timeAdjRate < 1/4 then ["時間調整去化率偏低"]
   else if 13/20 < r.timeAdjRate then ["可能過度銷售"] else []) ++
  (if r.monthlyRate < 1/20 then ["銷售效率低落"] else []) ++
  (if r.txCount = 0 then ["完全無成交"]
   else if r.txCount < 5 then ["成交量極低"] else []) ++
  (if optGt r.avgSalesMonths 36 then ["銷售期間過長"] else [])

/-- The accumulated 風險分數 of one row (test_2.py 333-365). -/
def absoluteRiskScore (r : Ind) : ℚ :=
  (if r.timeAdjRate < 1/4 then 3 else if 13/20 < r.timeAdjRate then 1 else 0) +
  (if r.monthlyRate < 1/20 then 2 else 0) +
  (if r.txCount = 0 then 4 else if r.txCount < 5 then 2 else 0) +
  (if optGt r.avgSalesMonths 36 then 1 else 0)

/-- 絕對風險等級 (test_2.py 367-371): score ≥ 5 → high, ≥ 2.5 → medium,
else the initialised low. -/
def absoluteRiskLevel (r : Ind) : String :=
  if 5 ≤ absoluteRiskScore r then "🔴 高風險"
  else if 5/2 ≤ absoluteRiskScore r then "🟡 中風險"
  else "🟢 低風險"

/-- 主要風險因子 (test_2.py 374). -/
def absoluteFactorsText (r : Ind) : String :=
  if absoluteRiskFactors r = [] then "無明顯風險"
  else String.intercalate "; " (absoluteRiskFactors r)

/-! ### test_2.py: relative risk classification -/

/-- pandas `Series.rank(method='min', ascending=False)` of value `v` among
`vals`: one more than the number of strictly greater values (equal values
share the lowest rank number). -/
def rankMinDesc (vals : List ℚ) (v : ℚ) : ℚ :=
  ((vals.filter (fun w => decide (v < w))).length : ℚ) + 1

/-- pandas `Series.rank(pct=False, method='average', ascending=True)` of `v`
among `vals`: the mean of the positions the tied block occupies. -/
def rankAvgAsc (vals : List ℚ) (v : ℚ) : ℚ :=
  (((vals.filter (fun w => decide (w < v))).length : ℚ) + 1
    + ((vals.filter (fun w => decide (w ≤ v))).length : ℚ)) / 2

/-- The rows of one 縣市 partition of the indicator table (test_2.py 388,
408-410): 縣市 is the part of 地區 before the first '-'. -/
def cityRows (rows : List Ind) (c : String) : List Ind :=
  rows.filter (fun r => decide (cityOf r.region = c))

/-- 縣市內排名 (test_2.py 419-424): the weighted sum of the three descending
min-method metric ranks within the row's city partition. -/
def compositeRank (g : List Ind) (r : Ind) : ℚ :=
  rankMinDesc (g.map (·.timeAdjRate)) r.timeAdjRate * (4/10)
  + rankMinDesc (g.map (·.monthlyRate)) r.monthlyRate * (3/10)
  + rankMinDesc (g.map (·.txCount)) r.txCount * (3/10)

/-- 縣市內百分位 (test_2.py 427): `composite_rank.rank(pct=True) * 100`, the
*ascending* average-method percentile of the composite rank within the city. -/
def cityPercentile (g : List Ind) (r : Ind) : ℚ :=
  rankAvgAsc (g.map (compositeRank g)) (compositeRank g r) / (g.length : ℚ) * 100

/-- The `absolute_minimums` floor checks (test_2.py 400-405, 437-443), in
firing order: 成交筆數 < 1, 時間調整去化率 < 0.005, 平均銷售月數 > 60. -/
def absoluteIssues (r : Ind) : List String :=
  (if r.txCount < 1 then ["成交筆數過低"] else []) ++
  (if r.timeAdjRate < 1/200 then ["去化率極低"] else []) ++
  (if optGt r.avgSalesMonths 60 then ["銷售期間過長"] else [])

/-- 相對風險等級 of row `r` of table `rows` (test_2.py 408-464): a city
partition with fewer than 3 rows keeps the absolute level; otherwise the
absolute floors force high risk, and only then the percentile thresholds
25 / 50 decide. -/
def relativeRiskLevel (rows : List Ind) (r : Ind) : String :=
  if (cityRows rows (cityOf r.region)).length < 3 then absoluteRiskLevel r
  else if absoluteIssues r ≠ [] then "🔴 高風險"
  else if cityPercentile (cityRows rows (cityOf r.region)) r ≤ 25 then "🔴 高風險"
  else if cityPercentile (cityRows rows (cityOf r.region)) r ≤ 50 then "🟡 中風險"
  else "🟢 低風險"

/-- 相對風險原因 of row `r` (test_2.py 415, 445-458); the Python f-string
formats the composite rank with `:.0f`, i.e. rounded half-to-even. -/
def relativeRiskReason (rows : List Ind) (r : Ind) : String :=
  if (cityRows rows (cityOf r.region)).length < 3 then "行政區數量不足,使用絕對標準"
  else if absoluteIssues r ≠ [] then
    "絕對標準問題: " ++ String.intercalate "; " (absoluteIssues r)
  else if cityPercentile (cityRows rows (cityOf r.region)) r ≤ 25 then
    "縣市內排名後25% (第" ++
      toString (roundHalfEven (compositeRank (cityRows rows (cityOf r.region)) r)) ++ "名)"
  else if cityPercentile (cityRows rows (cityOf r.region)) r ≤ 50 then
    "縣市內中等表現 (第" ++
      toString (roundHalfEven (compositeRank (cityRows rows (cityOf r.region)) r)) ++ "名)"
  else
    "縣市內前50% (第" ++
      toString (roundHalfEven (compositeRank (cityRows rows (cityOf r.region)) r)) ++ "名)"

/-! ### Concrete inputs used by the evaluations below -/

/-- A transaction table whose identifier set is disjoint from the community
table's. -/
def txDisjoint : List TRow :=
  [⟨some "社A", some "台北市", some "大安區", some "T001", some "113Y1S"⟩]

/-- A community table whose identifier set is disjoint from the transaction
table's. -/
def commDisjoint : List CRow := [⟨some "社B", some 50, some "C001"⟩]

/-- A one-city indicator table with strictly ordered metrics and no floor
breach: the first region is best on every metric, the last worst. -/
def indC2best : Ind := ⟨"甲市-一區", 8/10, 8/10, 80, some 12⟩

/-- Second-best region of the same city. -/
def indC2b : Ind := ⟨"甲市-二區", 6/10, 6/10, 60, some 12⟩

/-- Third region of the same city. -/
def indC2c : Ind := ⟨"甲市-三區", 4/10, 4/10, 40, some 12⟩

/-- Metrically worst region of the same city. -/
def indC2worst : Ind := ⟨"甲市-四區", 2/10, 2/10, 20, some 12⟩

/-- The four-region city table. -/
def indC2 : List Ind := [indC2best, indC2b, indC2c, indC2worst]

/-- A region breaching the zero-transaction floor while ranking third of four
on the composite (its percentile is 75, the low-risk band). -/
def indC3r1 : Ind := ⟨"乙市-壹區", 4/10, 4/10, 0, some 12⟩

/-- Best region of the C3 city. -/
def indC3b : Ind := ⟨"乙市-貳區", 9/10, 9/10, 90, some 12⟩

/-- Middle region of the C3 city. -/
def indC3c : Ind := ⟨"乙市-參區", 6/10, 6/10, 60, some 12⟩

/-- Worst-composite region of the C3 city. -/
def indC3d : Ind := ⟨"乙市-肆區", 2/10, 2/10, 20, some 12⟩

/-- The four-region city table for the floor-override evaluation. -/
def indC3 : List Ind := [indC3r1, indC3b, indC3c, indC3d]

/-- Two transactions of one project, one of them with a missing 交易年季. -/
def txC4 : List TRow :=
  [⟨some "社A", some "X市", some "Y區", some "P", some "111Y1S"⟩,
   ⟨some "社A", some "X市", some "Y區", some "P", none⟩]

/-- The community the C4 transactions link to. -/
def commC4 : List CRow := [⟨some "社A", some 10, some "P"⟩]

/-- Three fully-labelled transactions of one project over two quarters. -/
def txC4w : List TRow :=
  [⟨some "社B", some "X市", some "Y區", some "Q", some "112Y2S"⟩,
   ⟨some "社B", some "X市", some "Y區", some "Q", some "112Y1S"⟩,
   ⟨some "社B", some "X市", some "Y區", some "Q", some "112Y2S"⟩]

/-- The community the C4 witness transactions link to. -/
def commC4w : List CRow := [⟨some "社B", some 20, some "Q"⟩]

/-- Two projects of one district with unequal totals: (5 sold of 50) and
(45 sold of 150): per-project rates 10% and 30%. -/
def arowsC5 : List ARow :=
  [⟨"丁市", "戊區", 50, 5, 10, 1, 100⟩, ⟨"丁市", "戊區", 150, 45, 30, 1, 100⟩]

/-- First region of a two-region city whose absolute level is medium. -/
def indC6a : Ind := ⟨"丙市-甲區", 3/10, 2/100, 10, some 40⟩

/-- Second region of the two-region city. -/
def indC6b : Ind := ⟨"丙市-乙區", 7/10, 1/10, 30, some 10⟩

/-- The two-region city table. -/
def indC6 : List Ind := [indC6a, indC6b]

/-- One supply row for the C10 evaluation. -/
def salesC10 : List SRow := [⟨"己市", "庚區", 50, 12⟩]

/-- One transaction in that region whose 備查編號 is NaN. -/
def txsC10 : List T2Row := [⟨"己市", "庚區", none⟩]

/-- The indicator row the pipeline produces for that region: it exists (the
region has a transaction row) but its 成交筆數 is 0. -/
def indC10 : Ind := ⟨"己市-庚區", 0, 0, 0, some 12⟩

/-- A matched transaction/community pair for the C10 witness. -/
def txM : List TRow := [⟨some "社C", some "Z市", some "W區", some "M1", some "113Y1S"⟩]

/-- The community the C10 witness transaction links to. -/
def commM : List CRow := [⟨some "社C", some 30, some "M1"⟩]

/-! ### Helper lemmas -/

/-- Unfolding equation of `cumFrom` on a cons. -/
theorem cumFrom_cons (a c : Nat) (cs : List Nat) :
    cumFrom a (c :: cs) = (a + c) :: cumFrom (a + c) cs := rfl

/-- Every head of a cumulative-sum tail is at least the accumulator. -/
theorem cumFrom_head_le (a : Nat) (l : List Nat) : ∀ y ∈ (cumFrom a l).head?, a ≤ y := by
  cases l with
  | nil => simp [cumFrom]
  | cons c cs => simp [cumFrom]

/-- Cumulative sums of nonnegative counts never decrease. -/
theorem chain'_cumFrom (l : List Nat) : ∀ a, List.Chain' (· ≤ ·) (cumFrom a l) := by
  induction l with
  | nil => intro a; simp [cumFrom]
  | cons c cs ih =>
    intro a
    rw [cumFrom_cons, List.chain'_cons']
    exact ⟨fun y hy => cumFrom_head_le (a + c) cs y hy, ih (a + c)⟩

/-- The last cumulative value is the accumulator plus the total. -/
theorem cumFrom_getLast_cons :
    ∀ (cs : List Nat) (c a : Nat),
      (cumFrom a (c :: cs)).getLast? = some (a + (c :: cs).sum) := by
  intro cs
  induction cs with
  | nil => intro c a; simp [cumFrom]
  | cons c' cs' ih =>
    intro c a
    rw [cumFrom_cons, cumFrom_cons, List.getLast?_cons_cons, ← cumFrom_cons, ih c' (a + c)]
    simp
    omega

/-- A cumulative-sum series is non-decreasing. -/
theorem partialSums_chain' (l : List Nat) : List.Chain' (· ≤ ·) (partialSums l) :=
  chain'_cumFrom l 0

/-- The final cumulative value (0 for an empty series) is the total count. -/
theorem partialSums_getLast (l : List Nat) : (partialSums l).getLast?.getD 0 = l.sum := by
  cases l with
  | nil => simp [partialSums, cumFrom]
  | cons c cs => rw [partialSums, cumFrom_getLast_cons]; simp

/-! ### C4: quarterly cumulative series -/

/-- C4 (counterexample): the claim "the final value equals the total count of
transactions linked to that project" fails on a project with a linked
transaction whose 交易年季 is missing: `analyze_quarterly_trends` drops that
row (`dropna(subset=['交易年季', '備查編號'])`), so the cumulative series of
project "P" ends at 1 while 已售戶數 counts 2 linked transactions. -/
theorem c4_cumulative_final_counterexample :
    cumulativeUnitsSold txC4 commC4 "P" = [1]
    ∧ soldUnits txC4 "P" = 2
    ∧ (cumulativeUnitsSold txC4 commC4 "P").getLast?.getD 0 ≠ soldUnits txC4 "P" := by
  refine ⟨by decide, by decide, by decide⟩

/-- C4 (amended): for every project linked to a community, the quarterly
cumulative units-sold series (per project, quarters ascending) is
non-decreasing, and its final value equals the number of linked transactions
that carry a quarter label — transactions with a missing 交易年季 are
excluded by the quarterly analysis. -/
theorem c4_cumulative_monotone (txs : List TRow) (cs : List CRow) (p : String)
    (hp : p ∈ communityIds cs) :
    List.Chain' (· ≤ ·) (cumulativeUnitsSold txs cs p)
    ∧ (cumulativeUnitsSold txs cs p).getLast?.getD 0 = (quarterLabels txs p).length := by
  have hc : (communityIds cs).contains p = true := by
    simpa [List.contains, List.elem_iff] using hp
  rw [cumulativeUnitsSold, if_pos hc]
  refine ⟨partialSums_chain' _, ?_⟩
  rw [partialSums_getLast]
  unfold projectQuarters quarterSales
  calc ((List.insertionSort strLe (quarterLabels txs p).dedup).map
          fun q => (quarterLabels txs p).count q).sum
      = ((quarterLabels txs p).dedup.map fun q => (quarterLabels txs p).count q).sum :=
        ((List.perm_insertionSort strLe _).map _).sum_eq
    _ = (quarterLabels txs p).length := List.sum_map_count_dedup_eq_length _

/-- C4 (witness): the amended statement evaluated on a project with three
fully-labelled transactions over two quarters. -/
theorem c4_cumulative_monotone_witness :
    List.Chain' (· ≤ ·) (cumulativeUnitsSold txC4w commC4w "Q")
    ∧ (cumulativeUnitsSold txC4w commC4w "Q").getLast?.getD 0
        = (quarterLabels txC4w "Q").length :=
  c4_cumulative_monotone txC4w commC4w "Q" (by decide)

/-! ### C6: small-city fallback -/

/-- C6: for every row of the indicator table whose city partition has fewer
than 3 rows, Phase B copies the absolute level and records the
insufficient-peer-sample rationale; the classifier is a total function, so no
terminal failure is possible. -/
theorem c6_small_city_fallback (rows : List Ind) (r : Ind) (_hmem : r ∈ rows)
    (hsize : (cityRows rows (cityOf r.region)).length < 3) :
    relativeRiskLevel rows r = absoluteRiskLevel r
    ∧ relativeRiskReason rows r = "行政區數量不足,使用絕對標準" := by
  rw [relativeRiskLevel, if_pos hsize, relativeRiskReason, if_pos hsize]
  exact ⟨rfl, rfl⟩

/-- C6 (witness): a two-region city; the first region's absolute level is
medium and its relative level is the same medium with the fallback reason. -/
theorem c6_small_city_fallback_witness :
    relativeRiskLevel indC6 indC6a = absoluteRiskLevel indC6a
    ∧ relativeRiskReason indC6 indC6a = "行政區數量不足,使用絕對標準"
    ∧ absoluteRiskLevel indC6a = "🟡 中風險" := by
  have hrows : cityRows indC6 (cityOf indC6a.region) = indC6 := by
    simp [cityRows, cityOf, indC6, indC6a, indC6b, List.filter]
  have hsize : (cityRows indC6 (cityOf indC6a.region)).length < 3 := by
    rw [hrows]; decide
  have h := c6_small_city_fallback indC6 indC6a (by simp [indC6]) hsize
  refine ⟨h.1, h.2, ?_⟩
  norm_num [absoluteRiskLevel, absoluteRiskScore, optGt, indC6a]

/-! ### C3: absolute-floor override in Phase B -/

/-- C3: in a city partition with at least 3 rows, a region breaching any
absolute floor (成交筆數 < 1, 時間調整去化率 < 0.005, or 平均銷售月數 > 60)
is classified high risk regardless of its composite percentile, and the
rationale lists the breached floors. -/
theorem c3_floor_override (rows : List Ind) (r : Ind) (_hmem : r ∈ rows)
    (hsize : 3 ≤ (cityRows rows (cityOf r.region)).length)
    (hbreach : r.txCount < 1 ∨ r.timeAdjRate < 1/200 ∨ optGt r.avgSalesMonths 60 = true) :
    relativeRiskLevel rows r = "🔴 高風險"
    ∧ relativeRiskReason rows r
        = "絕對標準問題: " ++ String.intercalate "; " (absoluteIssues r)
    ∧ absoluteIssues r ≠ [] := by
  have hne : absoluteIssues r ≠ [] := by
    unfold absoluteIssues
    rcases hbreach with h | h | h
    · rw [if_pos h]; simp
    · rw [if_pos h]; simp
    · rw [if_pos h]; simp
  refine ⟨?_, ?_, hne⟩
  · rw [relativeRiskLevel, if_neg (by omega), if_pos hne]
  · rw [relativeRiskReason, if_neg (by omega), if_pos hne]

/-- C3 (witness): the floored region of `indC3` has composite percentile 75
(the low-risk band), yet is classified high risk with the floor rationale. -/
theorem c3_floor_override_witness :
    relativeRiskLevel indC3 indC3r1 = "🔴 高風險"
    ∧ relativeRiskReason indC3 indC3r1 = "絕對標準問題: 成交筆數過低"
    ∧ 50 < cityPercentile (cityRows indC3 (cityOf indC3r1.region)) indC3r1 := by
  have hrows : cityRows indC3 (cityOf indC3r1.region) = indC3 := by
    simp [cityRows, cityOf, indC3, indC3r1, indC3b, indC3c, indC3d, List.filter]
  have hsize : 3 ≤ (cityRows indC3 (cityOf indC3r1.region)).length := by
    rw [hrows]; decide
  have h := c3_floor_override indC3 indC3r1 (by simp [indC3]) hsize
    (Or.inl (by norm_num [indC3r1]))
  refine ⟨h.1, ?_, ?_⟩
  · rw [h.2.1]
    have : absoluteIssues indC3r1 = ["成交筆數過低"] := by
      norm_num [absoluteIssues, optGt, indC3r1]
    rw [this]
    rfl
  · rw [hrows]
    norm_num [cityPercentile, rankAvgAsc, compositeRank, rankMinDesc, indC3, indC3r1,
      indC3b, indC3c, indC3d, List.filter, List.map]

/-! ### C5: weighted rollup rates -/

/-- C5: every district-level and city-level rollup row carries
整體去化率 = round₂(100 × Σ已售戶數 / Σ戶數) over its group — the weighted
statistic of the spec — while the naive mean of per-community rates is kept
as the separate 去化率 column; on the asymmetric example (5 of 50) and
(45 of 150) the weighted value is 25 and the naive mean 20. -/
theorem c5_rollup_weighted :
    (∀ (rs : List ARow) (s : DistrictStat), s ∈ analyze_district_performance rs →
        s.overallRate = round2 (specWeightedRate (districtGroup rs (s.city, s.district))))
    ∧ (∀ (rs : List ARow) (s : CityStat), s ∈ analyze_city_performance rs →
        s.overallRate = round2 (specWeightedRate (cityGroup rs s.city)))
    ∧ analyze_district_performance arowsC5 = [⟨"丁市", "戊區", 200, 50, 20, 25⟩]
    ∧ specWeightedRate (districtGroup arowsC5 ("丁市", "戊區")) = 25
    ∧ meanRate (districtGroup arowsC5 ("丁市", "戊區")) = 20 := by
  refine ⟨?_, ?_, ?_, ?_, ?_⟩
  · intro rs s hs
    obtain ⟨k, hk, rfl⟩ := List.mem_map.1 hs
    show round2 (sumSold (districtGroup rs k) / sumUnits (districtGroup rs k) * 100)
        = round2 (specWeightedRate (districtGroup rs (k.1, k.2)))
    rw [Prod.mk.eta]
    unfold specWeightedRate
    congr 1
    ring
  · intro rs s hs
    obtain ⟨c, hc, rfl⟩ := List.mem_map.1 hs
    show round2 (sumSold (cityGroup rs c) / sumUnits (cityGroup rs c) * 100)
        = round2 (specWeightedRate (cityGroup rs c))
    unfold specWeightedRate
    congr 1
    ring
  · norm_num [analyze_district_performance, districtKeys, districtGroup, sumUnits,
      sumSold, meanRate, arowsC5, List.filter, List.map, round2, roundHalfEven]
  · norm_num [specWeightedRate, districtGroup, sumUnits, sumSold, arowsC5, List.filter,
      List.map]
  · norm_num [meanRate, districtGroup, arowsC5, List.filter, List.map]

/-- C5 (witness): the general district part applied to the concrete example
group. -/
theorem c5_rollup_weighted_witness :
    (⟨"丁市", "戊區", 200, 50, 20, 25⟩ : DistrictStat).overallRate
      = round2 (specWeightedRate (districtGroup arowsC5 ("丁市", "戊區"))) := by
  apply c5_rollup_weighted.1 arowsC5
  rw [c5_rollup_weighted.2.2.1]
  simp

/-! ### C7: marketing-start-date resolution -/

/-- C7 (counterexample): with both dates present the claim requires the
self-sale start (1120101) to win, but `sales_start_time` returns the
numerically smaller agent-sale start 1110101. -/
theorem c7_priority_counterexample :
    sales_start_time ⟨some 1120101, some 1110101, none, none⟩ = some 1110101
    ∧ sales_start_time ⟨some 1120101, some 1110101, none, none⟩ ≠ some 1120101 := by
  refine ⟨by decide, by decide⟩

/-- C7 (amended): the resolved start date is — both self-sale and agent-sale
present → the numerically (chronologically) smaller of the two; exactly one
present → that one; both absent → registration-completion date, else
permit-issuance date. -/
theorem c7_start_date_resolution :
    (∀ (row : SaleDatesRow) (s a : Int), row.selfStart = some s →
        row.agentStart = some a → sales_start_time row = some (min s a))
    ∧ (∀ (row : SaleDatesRow) (s : Int), row.selfStart = some s →
        row.agentStart = none → sales_start_time row = some s)
    ∧ (∀ (row : SaleDatesRow) (a : Int), row.selfStart = none →
        row.agentStart = some a → sales_start_time row = some a)
    ∧ (∀ row : SaleDatesRow, row.selfStart = none → row.agentStart = none →
        sales_start_time row = row.checkDone.or row.permitIssue) := by
  refine ⟨?_, ?_, ?_, ?_⟩
  · intro row s a h1 h2; simp [sales_start_time, h1, h2]
  · intro row s h1 h2; simp [sales_start_time, h1, h2]
  · intro row a h1 h2; simp [sales_start_time, h1, h2]
  · intro row h1 h2
    rcases row with ⟨ss, as_, cd, pd⟩
    simp only at h1 h2
    subst h1; subst h2
    cases cd <;> cases pd <;> simp [sales_start_time, Option.or]

/-- C7 (witness): the amended resolution evaluated with both dates present. -/
theorem c7_start_date_resolution_witness :
    sales_start_time ⟨some 1110101, some 1120101, none, none⟩ = some (min 1110101 1120101) :=
  c7_start_date_resolution.1 ⟨some 1110101, some 1120101, none, none⟩ 1110101 1120101 rfl rfl

/-! ### C8: wall-clock dependence of the sales-day computation -/

/-- C8 (counterexample): two runs on the same input row, differing only in
the sampled `datetime.now()` value, classify the row's sales stage
differently — the pipeline output is not independent of the wall clock. -/
theorem c8_idempotence_counterexample :
    stageAtTime (some 0) none 100 = "新開案"
    ∧ stageAtTime (some 0) none 300 = "積極銷售"
    ∧ stageAtTime (some 0) none 100 ≠ stageAtTime (some 0) none 300 := by
  have h1 : stageAtTime (some 0) none 100 = "新開案" := by
    norm_num [stageAtTime, classify_sales_stage, salesMonthsOfDays, calculate_sales_days]
  have h2 : stageAtTime (some 0) none 300 = "積極銷售" := by
    norm_num [stageAtTime, classify_sales_stage, salesMonthsOfDays, calculate_sales_days]
  refine ⟨h1, h2, ?_⟩
  rw [h1, h2]
  decide

/-- C8 (amended): the sales-day computation is a pure function of the row and
the sampled current date; the sampled date is irrelevant when the row has an
end date or no start date, and enters injectively when the end date is
missing — so two runs agree exactly when they sample the same date (or no
row needs the clock). -/
theorem c8_clock_dependence :
    (∀ (t1 t2 s e : Int),
        calculate_sales_days (some s) (some e) t1 = calculate_sales_days (some s) (some e) t2)
    ∧ (∀ (t1 t2 : Int) (e : Option Int),
        calculate_sales_days none e t1 = calculate_sales_days none e t2)
    ∧ (∀ (t1 t2 s : Int), t1 ≠ t2 →
        calculate_sales_days (some s) none t1 ≠ calculate_sales_days (some s) none t2) := by
  refine ⟨fun t1 t2 s e => rfl, fun t1 t2 e => rfl, fun t1 t2 s h => ?_⟩
  simp only [calculate_sales_days]
  omega

/-- C8 (witness): the clock-dependence part at concrete dates. -/
theorem c8_clock_dependence_witness :
    calculate_sales_days (some 0) none 100 ≠ calculate_sales_days (some 0) none 300 :=
  c8_clock_dependence.2.2 100 300 0 (by decide)

/-! ### C9: era-date normalisation -/

/-- Unfolding equation of `digitsGo` on a successor fuel. -/
theorem digitsGo_succ (f n : Nat) :
    digitsGo (f + 1) n = if n < 10 then 1 else digitsGo f (n / 10) + 1 := rfl

/-- With enough fuel, `digitsGo` returns the exact digit count. -/
theorem digitsGo_in_range :
    ∀ (k f n : Nat), 10 ^ k ≤ n → n < 10 ^ (k + 1) → k < f → digitsGo f n = k + 1 := by
  intro k
  induction k with
  | zero =>
    intro f n h1 h2 hf
    cases f with
    | zero => omega
    | succ f =>
      rw [digitsGo_succ, if_pos]
      simpa using h2
  | succ k ih =>
    intro f n h1 h2 hf
    cases f with
    | zero => omega
    | succ f =>
      have h10 : (10 : Nat) ≤ 10 ^ (k + 1) := by
        calc (10 : Nat) = 10 ^ 1 := by norm_num
        _ ≤ 10 ^ (k + 1) := Nat.pow_le_pow_right (by norm_num) (by omega)
      rw [digitsGo_succ, if_neg (by omega)]
      rw [ih f (n / 10) ?_ ?_ (by omega)]
      · rw [Nat.le_div_iff_mul_le (by norm_num)]
        calc 10 ^ k * 10 = 10 ^ (k + 1) := by ring
        _ ≤ n := h1
      · rw [Nat.div_lt_iff_lt_mul (by norm_num)]
        calc n < 10 ^ (k + 1 + 1) := h2
        _ = 10 ^ (k + 1) * 10 := by ring

/-- A natural in [10⁶, 10⁷) has 7 decimal digits. -/
theorem decDigits_eq_seven (n : Nat) (h1 : 1000000 ≤ n) (h2 : n < 10000000) :
    decDigits n = 7 :=
  digitsGo_in_range 6 30 n (by norm_num; omega) (by norm_num; omega) (by norm_num)

/-- A natural in [10⁵, 10⁶) has 6 decimal digits. -/
theorem decDigits_eq_six (n : Nat) (h1 : 100000 ≤ n) (h2 : n < 1000000) :
    decDigits n = 6 :=
  digitsGo_in_range 5 30 n (by norm_num; omega) (by norm_num; omega) (by norm_num)

/-- No month has more than 31 days. -/
theorem daysInMonth_le (y : Int) (m : Nat) : daysInMonth y m ≤ 31 := by
  unfold daysInMonth
  split_ifs <;> norm_num

/-- C9 (counterexample): two clauses of the claim fail.  (1) The era date
era_year = 11, month = 1, day = 23 is valid by the claim
(era_year ∈ [1, 200]), but its raw encoding 110123 has only 6 digits, and
the 6-digit branch mis-slices it into 2021-12-03 instead of a date with
absolute year 11 + 1911 = 1922.  (2) The claim says a negative input
returns null, but for −110123 Python's `str(int(·))` gives the 7-character
"-110123", whose slice `[:3] = "-11"` yields `datetime(-11+1911, 1, 23)` =
1900-01-23 — a non-null (and wrong) date. -/
theorem c9_date_counterexample :
    convert_taiwan_date (some 110123) = some ⟨2021, 12, 3⟩
    ∧ convert_taiwan_date (some 110123) ≠ some ⟨(11 : Int) + 1911, 1, 23⟩
    ∧ convert_taiwan_date (some (-110123)) = some ⟨1900, 1, 23⟩
    ∧ convert_taiwan_date (some (-110123)) ≠ none := by
  refine ⟨by decide, by decide, by decide, by decide⟩

/-- C9 (amended): for every era date with era_year ∈ [100, 200] (the 7-digit
encodings), month ∈ [1, 12] and day valid for that month, normalisation
returns the date with absolute year era_year + 1911; a 7-digit input with an
out-of-range month or day returns null; zero and NaN return null; every
positive input whose digit count is neither 6 nor 7 returns null.  A
*negative* input, however, is sliced together with its sign: a negative
whose magnitude has 6 digits (a 7-character string) is parsed with year
1911 − (magnitude / 10000), which can be a valid, non-null date (the
counterexample's 1900-01-23); only negatives whose magnitude digit count is
neither 5 nor 6 return null.  The function is total, so no exception ever
reaches the caller. -/
theorem c9_era_date_normalization :
    (∀ era m d : Nat, 100 ≤ era → era ≤ 200 → 1 ≤ m → m ≤ 12 → 1 ≤ d →
        d ≤ daysInMonth ((era : Int) + 1911) m →
        convert_taiwan_date (some ((era * 10000 + m * 100 + d : Nat) : Int))
          = some ⟨(era : Int) + 1911, m, d⟩)
    ∧ (∀ n : Nat, 1000000 ≤ n → n < 10000000 →
        ¬ (1 ≤ (n / 100) % 100 ∧ (n / 100) % 100 ≤ 12 ∧ 1 ≤ n % 100
            ∧ n % 100 ≤ daysInMonth ((n / 10000 : Nat) + 1911) ((n / 100) % 100)) →
        convert_taiwan_date (some (n : Int)) = none)
    ∧ convert_taiwan_date (some 0) = none
    ∧ convert_taiwan_date none = none
    ∧ (∀ dv : Int, 0 < dv → decDigits dv.toNat ≠ 7 → decDigits dv.toNat ≠ 6 →
        convert_taiwan_date (some dv) = none)
    ∧ (∀ n : Nat, 100000 ≤ n → n < 1000000 →
        convert_taiwan_date (some (-(n : Int)))
          = mkDatetime ((1911 : Int) - (n / 10000 : Nat)) ((n / 100) % 100) (n % 100))
    ∧ (∀ dv : Int, dv < 0 → decDigits (-dv).toNat ≠ 6 → decDigits (-dv).toNat ≠ 5 →
        convert_taiwan_date (some dv) = none) := by
  refine ⟨?_, ?_, by decide, by decide, ?_, ?_, ?_⟩
  · intro era m d h1 h2 h3 h4 h5 h6
    have hd31 : d ≤ 31 := le_trans h6 (daysInMonth_le _ _)
    have hlow : 1000000 ≤ era * 10000 + m * 100 + d := by omega
    have hhigh : era * 10000 + m * 100 + d < 10000000 := by omega
    have h7 : decDigits (era * 10000 + m * 100 + d) = 7 :=
      decDigits_eq_seven _ hlow hhigh
    have e1 : (era * 10000 + m * 100 + d) / 10000 = era := by omega
    have e2 : ((era * 10000 + m * 100 + d) / 100) % 100 = m := by omega
    have e3 : (era * 10000 + m * 100 + d) % 100 = d := by omega
    simp only [convert_taiwan_date, Int.toNat_natCast]
    rw [if_neg (by omega), if_pos (by omega), if_pos h7, e1, e2, e3]
    unfold mkDatetime
    rw [if_pos]
    exact ⟨by omega, by omega, h3, h4, h5, h6⟩
  · intro n hlow hhigh hbad
    have h7 : decDigits n = 7 := decDigits_eq_seven n hlow hhigh
    simp only [convert_taiwan_date, Int.toNat_natCast]
    rw [if_neg (by omega), if_pos (by omega), if_pos h7]
    unfold mkDatetime
    rw [if_neg]
    intro hc
    exact hbad ⟨hc.2.2.1, hc.2.2.2.1, hc.2.2.2.2.1, hc.2.2.2.2.2⟩
  · intro dv h0 h7 h6
    simp only [convert_taiwan_date]
    rw [if_neg (by omega), if_pos h0, if_neg h7, if_neg h6]
  · intro n h1 h2
    have h6 : decDigits n = 6 := decDigits_eq_six n h1 h2
    simp only [convert_taiwan_date, neg_neg, Int.toNat_natCast]
    rw [if_neg (by omega), if_neg (by omega), if_pos h6]
  · intro dv h0 h6 h5
    simp only [convert_taiwan_date]
    rw [if_neg (by omega), if_neg (by omega), if_neg h6, if_neg h5]

/-- C9 (witness): the round-trip at a leap-day era date, 1130229 →
2024-02-29. -/
theorem c9_era_date_normalization_witness :
    convert_taiwan_date (some ((113 * 10000 + 2 * 100 + 29 : Nat) : Int))
      = some ⟨(113 : Int) + 1911, 2, 29⟩ :=
  c9_era_date_normalization.1 113 2 29 (by norm_num) (by norm_num) (by norm_num)
    (by norm_num) (by norm_num) (by norm_num [daysInMonth, isLeapYear])

/-! ### C1: the dead zero-match abort guard -/

/-- C1: `preprocess_data` never aborts — for every pair of input tables it
returns a successful result, because `check_data_matching` returns `None`
and Python's `None == 0` is `False`.  On the concrete disjoint datasets the
diagnostics report 0 matched identifiers, preprocessing still succeeds, and
only the later absorption step bails out (returning no table) when it
recomputes the empty intersection itself. -/
theorem c1_zero_match_no_abort :
    (∀ (txs : List TRow) (cs : List CRow), (preprocess_data txs cs).isSome = true)
    ∧ (check_data_matching (dropnaTx txDisjoint) (dropnaComm commDisjoint)).1.matched = 0
    ∧ (preprocess_data txDisjoint commDisjoint).isSome = true
    ∧ calculate_time_adjusted_absorption_rate txDisjoint commDisjoint = none := by
  refine ⟨fun txs cs => ?_, by decide, by decide, by decide⟩
  simp [preprocess_data, check_data_matching]

/-! ### C2: the inverted percentile semantics of Phase B -/

/-- C2: on a four-region city with strictly ordered metrics and no floor
breach, the metrically best region (rank 1 on all three metrics) receives
percentile 25 and is classified 🔴 高風險 with the rationale "ranked in the
bottom 25% (rank 1)", while the metrically worst region receives percentile
100 and is classified 🟢 低風險 — the regions labelled high risk are the
relatively *best* quartile, contradicting both the claim and the code's own
rationale strings. -/
theorem c2_percentile_inversion :
    relativeRiskLevel indC2 indC2best = "🔴 高風險"
    ∧ relativeRiskLevel indC2 indC2worst = "🟢 低風險"
    ∧ relativeRiskReason indC2 indC2best = "縣市內排名後25% (第1名)"
    ∧ cityPercentile indC2 indC2best = 25
    ∧ cityPercentile indC2 indC2worst = 100
    ∧ indC2worst.timeAdjRate < indC2best.timeAdjRate
    ∧ indC2worst.monthlyRate < indC2best.monthlyRate
    ∧ indC2worst.txCount < indC2best.txCount
    ∧ absoluteIssues indC2best = []
    ∧ absoluteIssues indC2worst = [] := by
  have hrows1 : cityRows indC2 (cityOf indC2best.region) = indC2 := by
    simp [cityRows, cityOf, indC2, indC2best, indC2b, indC2c, indC2worst, List.filter]
  have hrows4 : cityRows indC2 (cityOf indC2worst.region) = indC2 := by
    simp [cityRows, cityOf, indC2, indC2best, indC2b, indC2c, indC2worst, List.filter]
  have hpct1 : cityPercentile indC2 indC2best = 25 := by
    norm_num [cityPercentile, rankAvgAsc, compositeRank, rankMinDesc, indC2, indC2best,
      indC2b, indC2c, indC2worst, List.filter, List.map]
  have hpct4 : cityPercentile indC2 indC2worst = 100 := by
    norm_num [cityPercentile, rankAvgAsc, compositeRank, rankMinDesc, indC2, indC2best,
      indC2b, indC2c, indC2worst, List.filter, List.map]
  have hiss1 : absoluteIssues indC2best = [] := by
    norm_num [absoluteIssues, optGt, indC2best]
  have hiss4 : absoluteIssues indC2worst = [] := by
    norm_num [absoluteIssues, optGt, indC2worst]
  have hcomp1 : compositeRank indC2 indC2best = 1 := by
    norm_num [compositeRank, rankMinDesc, indC2, indC2best, indC2b, indC2c, indC2worst,
      List.filter]
  have hround : roundHalfEven 1 = 1 := by norm_num [roundHalfEven]
  refine ⟨?_, ?_, ?_, hpct1, hpct4, by norm_num [indC2best, indC2worst],
    by norm_num [indC2best, indC2worst], by norm_num [indC2best, indC2worst],
    hiss1, hiss4⟩
  · rw [relativeRiskLevel, hrows1, hpct1, hiss1]
    norm_num [indC2]
  · rw [relativeRiskLevel, hrows4, hpct4, hiss4]
    norm_num [indC2]
  · rw [relativeRiskReason, hrows1, hpct1, hiss1, hcomp1, hround]
    norm_num [indC2]
    decide

/-! ### C10: rows of the absorption outputs and their transaction counts -/

/-- C10 (counterexample): a region whose only transaction row has a NaN
備查編號 yields a pipeline-produced indicator row with 成交筆數 = 0 — pandas
`count` tallies non-null identifiers, not rows — and the
"transaction count == 0" scoring branch fires on it (+4, 完全無成交, forced
high risk). -/
theorem c10_zero_count_counterexample :
    calc_time_adjusted_t2 salesC10 txsC10 1 = [indC10]
    ∧ indC10.txCount = 0
    ∧ "完全無成交" ∈ absoluteRiskFactors indC10
    ∧ absoluteRiskLevel indC10 = "🔴 高風險" := by
  refine ⟨?_, by norm_num [indC10], ?_, ?_⟩
  · norm_num [calc_time_adjusted_t2, demand_stats, region_supply, validSales, regionOfT,
      regionOfS, salesC10, txsC10, indC10, List.filter, List.map, List.find?,
      calculate_time_weighted_absorption]
    decide
  · norm_num [absoluteRiskFactors, optGt, indC10]
  · norm_num [absoluteRiskLevel, absoluteRiskScore, optGt, indC10]

/-- C10 (amended): every per-project row of the test.py absorption output has
已售戶數 ≥ 1 (the fill-with-0 branch is unreachable, since only communities
whose identifier appears among the transaction identifiers are retained);
and every per-region row of the test_2.py output has 成交筆數 ≥ 1 *provided
every transaction carries a non-null 備查編號* — the count tallies only
identifier-bearing transactions, so the zero-count scoring branch is
unreachable exactly under that proviso. -/
theorem c10_rows_have_transactions :
    (∀ (txs : List TRow) (cs : List CRow) (res : List MergedRow) (r : MergedRow),
        calculate_time_adjusted_absorption_rate txs cs = some res → r ∈ res → 1 ≤ r.sold)
    ∧ (∀ (sales : List SRow) (txs : List T2Row) (minM : ℚ) (i : Ind),
        (∀ t ∈ txs, t.bid.isSome = true) → i ∈ calc_time_adjusted_t2 sales txs minM →
        1 ≤ i.txCount) := by
  constructor
  · intro txs cs res r hcalc hr
    unfold calculate_time_adjusted_absorption_rate at hcalc
    by_cases hemp : (matchedIds txs cs).isEmpty
    · rw [if_pos hemp] at hcalc; exact absurd hcalc (by simp)
    · rw [if_neg hemp] at hcalc
      have hres : res = (filteredComm txs cs).filterMap (mergedRowFor txs cs) := by
        exact (Option.some.injEq _ _ ▸ hcalc).symm
      subst hres
      obtain ⟨c, hcmem, hcrow⟩ := List.mem_filterMap.1 hr
      unfold mergedRowFor at hcrow
      rcases hcid : c.cid with _ | i
      · rw [hcid] at hcrow; exact absurd hcrow (by simp)
      · rw [hcid] at hcrow
        have hr' : r = ⟨i, c.units,
            ((filteredTx txs cs).filter (fun t => t.bid = some i)).length⟩ := by
          simpa using hcrow.symm
        subst hr'
        have hcf := List.mem_filter.1 hcmem
        have hcin : (matchedIds txs cs).contains i = true := by
          have := hcf.2
          rw [hcid] at this
          exact this
        have himem : i ∈ matchedIds txs cs := by
          simpa [List.contains, List.elem_iff] using hcin
        have hitx : i ∈ transactionIds txs := (List.mem_filter.1 himem).1
        obtain ⟨t, htmem, htbid⟩ := List.mem_filterMap.1 (List.mem_dedup.1 hitx)
        have htf : t ∈ filteredTx txs cs := by
          apply List.mem_filter.2
          refine ⟨htmem, ?_⟩
          rw [htbid]
          simpa [List.contains, List.elem_iff] using himem
        have htf2 : t ∈ (filteredTx txs cs).filter (fun t => t.bid = some i) := by
          apply List.mem_filter.2
          exact ⟨htf, by simp [htbid]⟩
        show 1 ≤ ((filteredTx txs cs).filter (fun t => t.bid = some i)).length
        have := List.length_pos.2 (List.ne_nil_of_mem htf2)
        omega
  · intro sales txs minM i hbid hmem
    unfold calc_time_adjusted_t2 at hmem
    obtain ⟨d, hd, hi⟩ := List.mem_map.1 hmem
    have hcount : i.txCount = (d.txCount : ℚ) := by
      rcases hfind : (region_supply sales minM).find? (fun a => decide (a.region = d.region))
        with _ | a
      · rw [hfind] at hi; rw [← hi]
      · rw [hfind] at hi; rw [← hi]
    unfold demand_stats at hd
    obtain ⟨g, hg, hd2⟩ := List.mem_map.1 hd
    obtain ⟨t0, ht0, hre⟩ := List.mem_map.1 (List.mem_dedup.1 hg)
    have ht0f : t0 ∈ (txs.filter (fun t => decide (regionOfT t = g))).filter
        (fun t => t.bid.isSome) := by
      apply List.mem_filter.2
      refine ⟨List.mem_filter.2 ⟨ht0, by simp [hre]⟩, hbid t0 ht0⟩
    have hlen : 1 ≤ ((txs.filter (fun t => decide (regionOfT t = g))).filter
        (fun t => t.bid.isSome)).length := by
      have := List.length_pos.2 (List.ne_nil_of_mem ht0f)
      omega
    have hdc : d.txCount = ((txs.filter (fun t => decide (regionOfT t = g))).filter
        (fun t => t.bid.isSome)).length := by
      rw [← hd2]
    rw [hcount, hdc]
    exact_mod_cast hlen

/-- C10 (witness): the per-project part evaluated on a matched
transaction/community pair. -/
theorem c10_rows_have_transactions_witness :
    1 ≤ (⟨"M1", some 30, 1⟩ : MergedRow).sold := by
  apply c10_rows_have_transactions.1 txM commM [⟨"M1", some 30, 1⟩]
  · decide
  · simp
